import Mathlib

/-!
Verification development for the screwpy bolted-joint analysis library.

Shallow embedding conventions:
* A pint `Quantity` is modelled as its physical value in SI base units, held as
  a rational number (every Python float is a rational, so quantifying over `ℚ`
  covers every machine-representable input).  `Quantity.to(...)` and
  `to_base_units()` change only the displayed unit, never the physical value,
  so they are modelled by the identity `toUnit`; displayed magnitudes divide
  the SI value by the unit factor.
* Formulas that stay inside rational arithmetic in the source (validation,
  preloads, loading-plane factor, slip margin) are computable `ℚ` functions.
  Formulas using `math.pi`, `math.log` or `** 0.5` (stiffness, combined
  margins) are real-valued.
* Fallible Python code is `Except PyError _`: `math.log` of a non-positive
  float raises `ValueError` (math domain error), division of floats by zero
  raises `ZeroDivisionError`, and explicit `raise ValueError(...)` sites in
  validation are `PyError.valueError`.  Divisions whose zero case no claim
  touches are left as Lean total division (`x / 0 = 0`).
* In-place mutation of a `Junction` is modelled by returning the state the
  Python object holds after the call, together with the call outcome.
-/

namespace Screwpy

/-- Kinds of exceptions the source can raise.  `valueError` covers the
explicit `raise ValueError(...)` sites, `mathDomainError` is the `ValueError`
raised by `math.log` on a non-positive argument, `zeroDivisionError` the
`ZeroDivisionError` of float division, `indexError` the `IndexError` of
`list.pop`.  `invalidJointGeometry` is the distinct condition the spec's
error-handling section calls for; no line of the source ever raises it. -/
inductive PyError where
  | typeError
  | valueError
  | zeroDivisionError
  | mathDomainError
  | indexError
  | invalidJointGeometry
deriving DecidableEq

/-- materials/material.py: the fields the analysis core reads, each an SI
value.  (Validation of the material record itself is outside the core.) -/
structure Material where
  elastic_modulus : ℚ
  thermal_expansion : ℚ
  yield_strength : ℚ
  ultimate_strength : ℚ
deriving DecidableEq

/-- material.py `ultimate_shear_strength` property:
`calculate_shear_strength(ultimate=True) = 0.577 * ultimate_strength`. -/
def Material.ultimate_shear_strength (m : Material) : ℚ :=
  0.577 * m.ultimate_strength

/-- components/clamped_components.py: a clamped component exposes a thickness
and a material (Washer and PlateComponent both reduce to this interface for
the junction core). -/
structure ClampedComponent where
  thickness : ℚ
  material : Material
deriving DecidableEq

/-- components/threaded_components.py `Fastener`.  `nominal_diameter` is the
value `parse_thread_specification(thread_spec)` stores at construction; the
re-parse inside `Junction._validate_assembly` yields the same value for the
standard specs accepted by the parser.  `is_flat_head` models the Python
expression `hasattr(fastener, 'is_flat_head') and fastener.is_flat_head`
evaluated in `Junction.configuration_type`; for every instance of the source
`Fastener` class (which defines `is_flat`, not `is_flat_head`) it is
`false`, but the junction code is written against duck typing, so it is kept
as a field. -/
structure Fastener where
  thread_spec : String
  nominal_diameter : ℚ
  length : ℚ
  threaded_length : ℚ
  head_diameter : ℚ
  head_height : ℚ
  is_flat : Bool
  is_flat_head : Bool
  material : Material
deriving DecidableEq

/-- The `Union[Nut, ThreadedPlate]` threaded member.  A `Nut`'s
`threaded_length` is its height (threaded_components.py line 147). -/
inductive ThreadedMember where
  | nut (thread_spec : String) (width_across_flats : ℚ) (height : ℚ)
      (material : Material)
  | threadedPlate (thread_spec : String) (thickness : ℚ)
      (threaded_length : ℚ) (material : Material)
deriving DecidableEq

def ThreadedMember.thread_spec : ThreadedMember → String
  | .nut s _ _ _ => s
  | .threadedPlate s _ _ _ => s

def ThreadedMember.threaded_length : ThreadedMember → ℚ
  | .nut _ _ h _ => h
  | .threadedPlate _ _ tl _ => tl

/-- junctions/junction.py `Junction`: one fastener, an ordered clamped stack,
one threaded member.  The threaded member is held separately from the clamped
list (as in the tests); the `comp != self.threaded_member` identity filter in
`stack_up_thickness` therefore keeps every clamped entry. -/
structure Junction where
  fastener : Fastener
  clamped_components : List ClampedComponent
  threaded_member : ThreadedMember
deriving DecidableEq

/-- `grip_length`: sum of the clamped thicknesses (0 for an empty stack). -/
def Junction.grip_length (j : Junction) : ℚ :=
  (j.clamped_components.map (fun c => c.thickness)).sum

/-- `stack_up_thickness`: for a ThreadedPlate member, the sum over clamped
components distinct from the member (all of them, in this model); for a nut,
the grip length. -/
def Junction.stack_up_thickness (j : Junction) : ℚ :=
  match j.threaded_member with
  | .threadedPlate _ _ _ _ =>
      (j.clamped_components.map (fun c => c.thickness)).sum
  | .nut _ _ _ _ => j.grip_length

/-- `_calculate_thread_engagement`. -/
def Junction.thread_engagement (j : Junction) : ℚ :=
  min j.threaded_member.threaded_length j.fastener.threaded_length

/-- The `required_length` computed inside `_validate_assembly`: stack-up
thickness plus the member height when the member is a nut. -/
def Junction.required_length (j : Junction) : ℚ :=
  j.stack_up_thickness +
    match j.threaded_member with
    | .nut _ _ h _ => h
    | .threadedPlate _ _ _ _ => 0

/-- `_validate_assembly`, check for check in source order.  The `hasattr`
yield-strength check always passes (every `Material` has the field).  The
nominal diameter re-parsed from the thread spec string equals the stored
`nominal_diameter`. -/
def Junction.validate_assembly (j : Junction) : Except PyError Unit :=
  if j.clamped_components = [] then .error .valueError
  else if j.fastener.thread_spec ≠ j.threaded_member.thread_spec then
    .error .valueError
  else if j.thread_engagement < (1 / 2 : ℚ) * j.fastener.nominal_diameter then
    .error .valueError
  else if j.fastener.length ≤ j.required_length then .error .valueError
  else .ok ()

instance {ε α : Type} [DecidableEq ε] [DecidableEq α] :
    DecidableEq (Except ε α) := fun a b =>
  match a, b with
  | .ok x, .ok y => decidable_of_iff (x = y) (by simp)
  | .error x, .error y => decidable_of_iff (x = y) (by simp)
  | .ok _, .error _ => isFalse (by simp)
  | .error _, .ok _ => isFalse (by simp)

/-- The state a mutating `Junction` method leaves behind, plus its outcome. -/
structure MutationOutcome where
  state : Junction
  result : Except PyError Unit
deriving DecidableEq

/-- `add_clamped_component`: appends, then validates.  There is no rollback:
when validation raises, the exception propagates with the component still
appended. -/
def Junction.add_clamped_component (j : Junction) (c : ClampedComponent) :
    MutationOutcome :=
  let j2 : Junction := { j with clamped_components := j.clamped_components ++ [c] }
  { state := j2, result := j2.validate_assembly }

/-- `remove_clamped_component`: refuses to drop the last component, pops,
validates, and re-inserts the popped component at the same index on failure
(restoring the exact prior list).  Negative Python indices are not modelled. -/
def Junction.remove_clamped_component (j : Junction) (index : ℕ) :
    MutationOutcome :=
  if j.clamped_components.length ≤ 1 then
    { state := j, result := .error .valueError }
  else if index < j.clamped_components.length then
    let j2 : Junction :=
      { j with clamped_components := j.clamped_components.eraseIdx index }
    match j2.validate_assembly with
    | .ok _ => { state := j2, result := .ok () }
    | .error _ => { state := j, result := .error .valueError }
  else { state := j, result := .error .indexError }

/-- `set_fastener`: assign, validate, restore the old fastener on failure. -/
def Junction.set_fastener (j : Junction) (f : Fastener) : MutationOutcome :=
  let j2 : Junction := { j with fastener := f }
  match j2.validate_assembly with
  | .ok _ => { state := j2, result := .ok () }
  | .error _ => { state := j, result := .error .valueError }

/-- `set_threaded_member`: assign, validate, restore on failure. -/
def Junction.set_threaded_member (j : Junction) (m : ThreadedMember) :
    MutationOutcome :=
  let j2 : Junction := { j with threaded_member := m }
  match j2.validate_assembly with
  | .ok _ => { state := j2, result := .ok () }
  | .error _ => { state := j, result := .error .valueError }

/-- environment/environment.py `Environment`: SI values (N, N·m, K). -/
structure Environment where
  tension : ℚ
  shear : ℚ
  bending : ℚ
  min_temp : ℚ
  nom_temp : ℚ
  max_temp : ℚ
  preload_torque : ℚ
deriving DecidableEq

/-- `Environment.validate`: temperatures strictly above absolute zero and a
positive preload torque (the dimensionality checks are type-level here). -/
def Environment.validate (e : Environment) : Except PyError Unit :=
  if e.min_temp ≤ 0 ∨ e.nom_temp ≤ 0 ∨ e.max_temp ≤ 0 then .error .valueError
  else if e.preload_torque ≤ 0 then .error .valueError
  else .ok ()

/-- The `unit_system` string: anything outside metric/imperial fails
`_validate_inputs`. -/
inductive UnitSystem where
  | metric
  | imperial
  | unrecognized
deriving DecidableEq

/-- analysis/nasa5020.py `NASA5020Analysis` configuration record
(`safety_factors` dict flattened into its three required keys). -/
structure AnalysisConfig where
  unit_system : UnitSystem
  friction_coefficient : ℚ
  safety_ultimate : ℚ
  safety_yield : ℚ
  safety_separation : ℚ
  fitting_factor : ℚ
  nut_factor : ℚ
  preload_uncertainty_factor : ℚ
deriving DecidableEq

/-- `_validate_inputs`, in source order: unit system membership, friction
coefficient in (0, 1], all three safety factors > 1, fitting factor ≥ 1.
`nut_factor` and `preload_uncertainty_factor` are never examined. -/
def AnalysisConfig.validate_inputs (c : AnalysisConfig) : Except PyError Unit :=
  if c.unit_system = .unrecognized then .error .valueError
  else if ¬(0 < c.friction_coefficient ∧ c.friction_coefficient ≤ 1) then
    .error .valueError
  else if ¬(1 < c.safety_ultimate ∧ 1 < c.safety_yield ∧
      1 < c.safety_separation) then .error .valueError
  else if c.fitting_factor < 1 then .error .valueError
  else .ok ()

/-- pint `.to(...)` / `.to_base_units()`: the physical value is unchanged. -/
def toUnit (x : ℚ) : ℚ := x

/-- Exact pint conversion factor: newtons per pound-force. -/
def newtons_per_lbf : ℚ := 4.4482216152605

/-- SI newtons per preferred force unit of a unit system
(`'lbf' if imperial else 'newton'`). -/
def force_unit_factor : UnitSystem → ℚ
  | .imperial => newtons_per_lbf
  | _ => 1

/-- Magnitude a force Quantity displays in the unit system's preferred unit. -/
def displayedForce (us : UnitSystem) (x : ℚ) : ℚ := x / force_unit_factor us

/-- `_get_stress_area`: `0.25 * 3.14159 * d**2`, converted to mm² (metric) or
in² (imperial) — the same physical area either way. -/
def get_stress_area (c : AnalysisConfig) (j : Junction) : ℚ :=
  let diameter := j.fastener.nominal_diameter
  if c.unit_system = .metric then toUnit (0.25 * 3.14159 * diameter ^ 2)
  else toUnit (0.25 * 3.14159 * diameter ^ 2)

/-- `calculate_preloads`, returning the `(min, max, nominal)` preload triple
as physical SI values.  Note `base_min_preload` is `(1 - u) * base_max_preload`
(source line 270), not `(1 - u) * base_preload`. -/
def calculate_preloads (c : AnalysisConfig) (env : Environment) (j : Junction) :
    Except PyError (ℚ × ℚ × ℚ) :=
  let diameter := j.fastener.nominal_diameter
  let nut_factor := c.nut_factor
  if nut_factor * diameter = 0 then .error .zeroDivisionError
  else
    let base_preload := toUnit (env.preload_torque / (nut_factor * diameter))
    let base_max_preload := (1 + c.preload_uncertainty_factor) * base_preload
    let base_min_preload := (1 - c.preload_uncertainty_factor) * base_max_preload
    let delta_T_cold := toUnit (env.nom_temp - env.min_temp)
    let delta_T_hot := toUnit (env.max_temp - env.nom_temp)
    let alpha_bolt := toUnit j.fastener.material.thermal_expansion
    let E_bolt := j.fastener.material.elastic_modulus
    let stress_area := get_stress_area c j
    let alphas :=
      j.clamped_components.map (fun comp => toUnit comp.material.thermal_expansion)
    if alphas.length = 0 then .error .zeroDivisionError
    else
      let alpha_joint := alphas.sum / (alphas.length : ℚ)
      let delta_alpha := alpha_bolt - alpha_joint
      let delta_P_t_hot := toUnit (delta_alpha * delta_T_hot * E_bolt * stress_area)
      let delta_P_t_cold := toUnit (delta_alpha * delta_T_cold * E_bolt * stress_area)
      let delta_P_t_max := max |delta_P_t_hot| |delta_P_t_cold|
      let delta_P_t_min := min |delta_P_t_hot| |delta_P_t_cold|
      .ok (toUnit (base_min_preload - delta_P_t_min),
           toUnit (base_max_preload + delta_P_t_max),
           toUnit base_preload)

/-- The preload triple as displayed in the configured unit system's preferred
force unit (the magnitudes of the returned Quantities). -/
def calculate_preloads_displayed (c : AnalysisConfig) (env : Environment)
    (j : Junction) : Except PyError (ℚ × ℚ × ℚ) :=
  (calculate_preloads c env j).map fun t =>
    (displayedForce c.unit_system t.1, displayedForce c.unit_system t.2.1,
     displayedForce c.unit_system t.2.2)

/-- `Junction.JointConfiguration` (NASA-TM-106943). -/
inductive JointConfiguration where
  | THROUGH_BOLT
  | FLAT_HEAD_THROUGH
  | THREADED_END
  | FLAT_HEAD_THREADED
deriving DecidableEq

/-- `configuration_type`: dispatches on the fastener's `is_flat_head`
attribute (see `Fastener.is_flat_head`) and on whether the threaded member is
a ThreadedPlate. -/
def Junction.configuration_type (j : Junction) : JointConfiguration :=
  let is_flat_head := j.fastener.is_flat_head
  let is_threaded_end :=
    match j.threaded_member with
    | .threadedPlate _ _ _ _ => true
    | .nut _ _ _ _ => false
  if is_flat_head && is_threaded_end then .FLAT_HEAD_THREADED
  else if is_flat_head then .FLAT_HEAD_THROUGH
  else if is_threaded_end then .THREADED_END
  else .THROUGH_BOLT

/-- Fallback component for Python's `list[-1]` / `list[0]` on the clamped
stack; validation guarantees the stack is nonempty, so the fallback is never
reached from a constructed Junction. -/
def defaultClamped : ClampedComponent := ⟨0, ⟨0, 0, 0, 0⟩⟩

/-- `sum(l / E for l, E in zip(thicknesses, moduli))` over a clamped stack. -/
def sum_l_over_E (cs : List ClampedComponent) : ℚ :=
  (cs.map (fun c => c.thickness / c.material.elastic_modulus)).sum

open Classical in
/-- `_get_configuration_parameters`: the `(L, D, E_j)` triple, per
configuration.  `hasattr(fastener, 'head_height')` holds for every Fastener,
so `h` is always the head height.  Lists follow Python slicing:
`[:-1] = dropLast`, `[1:-1] = (drop 1).dropLast`, `[-1] = getLast`,
`[0] = head`. -/
noncomputable def Junction.get_configuration_parameters (j : Junction) :
    Except PyError (ℝ × ℝ × ℝ) :=
  let D : ℚ := j.fastener.nominal_diameter
  let cs := j.clamped_components
  let ts := cs.map (fun c => c.thickness)
  match j.configuration_type with
  | .THROUGH_BOLT =>
      let L : ℚ := ts.sum
      let slE : ℚ := sum_l_over_E cs
      if slE = 0 then .error .zeroDivisionError
      else .ok ((L : ℝ), (D : ℝ), (L : ℝ) / (2 * Real.pi) / (slE : ℝ))
  | .FLAT_HEAD_THROUGH =>
      let h : ℚ := j.fastener.head_height
      let L : ℚ := ts.sum - h / 2
      let slE : ℚ := sum_l_over_E cs
      -- `sum_l_E ** 0.5`: square root (the reachable arguments are ≥ 0)
      if Real.sqrt (slE : ℝ) = 0 then .error .zeroDivisionError
      else .ok ((L : ℝ), (D : ℝ), (L : ℝ) / Real.sqrt (slE : ℝ))
  | .THREADED_END =>
      let tl : ℚ := j.threaded_member.threaded_length
      let lastC := cs.getLast?.getD defaultClamped
      let L : ℚ := (cs.dropLast.map (fun c => c.thickness)).sum +
        (lastC.thickness - tl / 2)
      let slE : ℚ := sum_l_over_E cs.dropLast +
        (lastC.thickness - tl / 2) / lastC.material.elastic_modulus
      if slE = 0 then .error .zeroDivisionError
      else .ok ((L : ℝ), (D : ℝ), (L : ℝ) / (slE : ℝ))
  | .FLAT_HEAD_THREADED =>
      let h : ℚ := j.fastener.head_height
      let tl : ℚ := j.threaded_member.threaded_length
      let firstC := cs.head?.getD defaultClamped
      let lastC := cs.getLast?.getD defaultClamped
      let middle := (cs.drop 1).dropLast
      let L : ℚ := firstC.thickness - h / 2 +
        (middle.map (fun c => c.thickness)).sum + (lastC.thickness - tl / 2)
      let slE : ℚ := (firstC.thickness - h / 2) / firstC.material.elastic_modulus +
        sum_l_over_E middle +
        (lastC.thickness - tl / 2) / lastC.material.elastic_modulus
      if slE = 0 then .error .zeroDivisionError
      else .ok ((L : ℝ), (D : ℝ), (L : ℝ) / (slE : ℝ))

open Classical in
/-- `calculate_bolt_stiffness` (the second, overriding definition in the
source): `K_b = 0.25·π·D²·E_b / L` with `L` from
`_get_configuration_parameters`. -/
noncomputable def Junction.calculate_bolt_stiffness (j : Junction) :
    Except PyError ℝ :=
  match j.get_configuration_parameters with
  | .error e => .error e
  | .ok (L, D, _) =>
      if L = 0 then .error .zeroDivisionError
      else
        .ok (0.25 * Real.pi * D ^ 2 *
          (j.fastener.material.elastic_modulus : ℝ) / L)

open Classical in
/-- The argument handed to `log` inside `calculate_joint_stiffness`, per
configuration (the geometric ratio of the pressure-cone model).
`hasattr(fastener, 'head_diameter')` holds for every Fastener, so `d_h` is
always the head diameter. -/
noncomputable def Junction.joint_stiffness_log_argument (j : Junction) :
    Except PyError ℝ :=
  match j.get_configuration_parameters with
  | .error e => .error e
  | .ok (L, D, _) =>
      match j.configuration_type with
      | .THROUGH_BOLT =>
          if L + 2.5 * D = 0 then .error .zeroDivisionError
          else .ok ((L + 0.5 * D) / (L + 2.5 * D))
      | .FLAT_HEAD_THROUGH =>
          let d_w := ((j.fastener.head_diameter : ℝ) + D) / 2
          if (L + d_w + D) * (d_w - D) * (L + 2.5 * D) = 0 then
            .error .zeroDivisionError
          else .ok ((L + d_w - D) * (d_w + D) * (L + 0.5 * D) /
            ((L + d_w + D) * (d_w - D) * (L + 2.5 * D)))
      | .THREADED_END =>
          if 2 * L + 2.5 * D = 0 then .error .zeroDivisionError
          else .ok ((2 * L + 0.5 * D) / (2 * L + 2.5 * D))
      | .FLAT_HEAD_THREADED =>
          let d_w := ((j.fastener.head_diameter : ℝ) + D) / 2
          if (L + d_w + D) * (d_w - D) = 0 then .error .zeroDivisionError
          else .ok ((L + d_w - D) * (d_w + D) / ((L + d_w + D) * (d_w - D)))

open Classical in
/-- `calculate_joint_stiffness` (the second, overriding definition):
`K_j = π·E_j·D / (2·log r)` for THROUGH_BOLT and `π·E_j·D / log r`
otherwise, where `r` is `joint_stiffness_log_argument`.  `math.log` raises
`ValueError` (math domain error) for `r ≤ 0`; a zero log divides by zero. -/
noncomputable def Junction.calculate_joint_stiffness (j : Junction) :
    Except PyError ℝ :=
  match j.get_configuration_parameters with
  | .error e => .error e
  | .ok (_, D, E_j) =>
      match j.joint_stiffness_log_argument with
      | .error e => .error e
      | .ok r =>
          if r ≤ 0 then .error .mathDomainError
          else if Real.log r = 0 then .error .zeroDivisionError
          else
            match j.configuration_type with
            | .THROUGH_BOLT => .ok (Real.pi * E_j * D / (2 * Real.log r))
            | .FLAT_HEAD_THROUGH => .ok (Real.pi * E_j * D / Real.log r)
            | .THREADED_END => .ok (Real.pi * E_j * D / Real.log r)
            | .FLAT_HEAD_THREADED => .ok (Real.pi * E_j * D / Real.log r)

open Classical in
/-- `calculate_stiffness_factor`: `Φ = K_b / (K_b + K_j)`. -/
noncomputable def Junction.calculate_stiffness_factor (j : Junction) :
    Except PyError ℝ :=
  match j.calculate_bolt_stiffness with
  | .error e => .error e
  | .ok K_b =>
      match j.calculate_joint_stiffness with
      | .error e => .error e
      | .ok K_j =>
          if K_b + K_j = 0 then .error .zeroDivisionError
          else .ok (K_b / (K_b + K_j))

/-- `calculate_loading_plane_factor`: rational arithmetic throughout;
division by a zero total thickness raises `ZeroDivisionError`. -/
def Junction.calculate_loading_plane_factor (j : Junction) :
    Except PyError ℚ :=
  let ts := j.clamped_components.map (fun c => c.thickness)
  let total_thickness := ts.sum
  if total_thickness = 0 then .error .zeroDivisionError
  else
    match j.configuration_type with
    | .THROUGH_BOLT =>
        .ok ((ts.dropLast.sum + (ts.getLast?.getD 0) / 2) / total_thickness)
    | .FLAT_HEAD_THROUGH =>
        let h := j.fastener.head_height
        .ok ((ts.head?.getD 0 - h / 2 + ((ts.drop 1).dropLast).sum +
          (ts.getLast?.getD 0) / 2) / total_thickness)
    | .THREADED_END =>
        let tl := j.threaded_member.threaded_length
        .ok ((ts.dropLast.sum + (ts.getLast?.getD 0 - tl / 2)) /
          total_thickness)
    | .FLAT_HEAD_THREADED =>
        let h := j.fastener.head_height
        let tl := j.threaded_member.threaded_length
        .ok ((ts.head?.getD 0 - h / 2 + ((ts.drop 1).dropLast).sum +
          (ts.getLast?.getD 0 - tl / 2)) / total_thickness)

/-- `_calculate_ultimate_margins` with a stress area supplied (as the engine
always does): stresses are load/area, margins `allowable/(stress·FS·FF) − 1`,
combined via the elliptical interaction with each term normalized by its own
allowable.  `(...) ** 0.5` is a square root (the argument is a sum of
squares). -/
noncomputable def ultimate_margins_formula (tension_load shear_load : ℚ)
    (ultimate_tensile_strength ultimate_shear_strength : ℚ)
    (safety_factor fitting_factor : ℚ) (stress_area : ℚ) : ℝ × ℝ × ℝ :=
  let tension_stress := tension_load / stress_area
  let shear_stress := shear_load / stress_area
  let tension_margin : ℚ :=
    ultimate_tensile_strength / (tension_stress * safety_factor * fitting_factor) - 1
  let shear_margin : ℚ :=
    ultimate_shear_strength / (shear_stress * safety_factor * fitting_factor) - 1
  let combined_sq : ℚ :=
    (tension_stress * safety_factor * fitting_factor / ultimate_tensile_strength) ^ 2 +
    (shear_stress * safety_factor * fitting_factor / ultimate_shear_strength) ^ 2
  ((tension_margin : ℝ), (shear_margin : ℝ),
    1 / Real.sqrt (combined_sq : ℝ) - 1)

/-- `_calculate_yield_margins` with a stress area supplied: shear allowable is
`0.577 · yield`, combined uses the von Mises form with factor 3 and both
terms normalized by the tensile yield strength. -/
noncomputable def yield_margins_formula (tension_load shear_load : ℚ)
    (yield_strength : ℚ) (safety_factor fitting_factor : ℚ)
    (stress_area : ℚ) : ℝ × ℝ × ℝ :=
  let tension_stress := tension_load / stress_area
  let shear_stress := shear_load / stress_area
  let yield_shear : ℚ := yield_strength * 0.577
  let tension_margin : ℚ :=
    yield_strength / (tension_stress * safety_factor * fitting_factor) - 1
  let shear_margin : ℚ :=
    yield_shear / (shear_stress * safety_factor * fitting_factor) - 1
  let combined_sq : ℚ :=
    (tension_stress * safety_factor * fitting_factor / yield_strength) ^ 2 +
    3 * (shear_stress * safety_factor * fitting_factor / yield_strength) ^ 2
  ((tension_margin : ℝ), (shear_margin : ℝ),
    1 / Real.sqrt (combined_sq : ℝ) - 1)

/-- `NASA5020Analysis.calculate_ultimate_margins`. -/
noncomputable def calculate_ultimate_margins (c : AnalysisConfig)
    (env : Environment) (j : Junction) : ℝ × ℝ × ℝ :=
  ultimate_margins_formula env.tension env.shear
    j.fastener.material.ultimate_strength
    j.fastener.material.ultimate_shear_strength
    c.safety_ultimate c.fitting_factor (get_stress_area c j)

/-- `NASA5020Analysis.calculate_yield_margins`. -/
noncomputable def calculate_yield_margins (c : AnalysisConfig)
    (env : Environment) (j : Junction) : ℝ × ℝ × ℝ :=
  yield_margins_formula env.tension env.shear
    j.fastener.material.yield_strength
    c.safety_yield c.fitting_factor (get_stress_area c j)

/-- `NASA5020Analysis.calculate_slip_margin`:
`μ · nominal_preload / shear − 1` (a dimensionless ratio of physical values,
so the display unit of the preload drops out). -/
def calculate_slip_margin (c : AnalysisConfig) (env : Environment)
    (j : Junction) : Except PyError ℚ :=
  (calculate_preloads c env j).map fun t =>
    c.friction_coefficient * t.2.2 / env.shear - 1

/-- `_calculate_separation_margin`: the helper receives bolt and joint
stiffness but uses only the loading-plane and stiffness factors:
`MS = (P − n·Φ·P_ext) / (P_ext·FS·FF) − 1`. -/
noncomputable def separation_margin_formula (preload external_load : ℚ)
    (safety_factor fitting_factor : ℚ) (loading_plane_factor : ℚ)
    (stiffness_factor : ℝ) : ℝ :=
  let bolt_load_change :=
    (loading_plane_factor : ℝ) * stiffness_factor * (external_load : ℝ)
  let interface_load := (preload : ℝ) - bolt_load_change
  interface_load /
    ((external_load : ℝ) * (safety_factor : ℝ) * (fitting_factor : ℝ)) - 1

/-- `NASA5020Analysis.calculate_separation_margin`: reads `K_b`, `K_j`, `n`
and `Φ` from the Junction, `min_preload` from `calculate_preloads`, and
applies `_calculate_separation_margin`. -/
noncomputable def calculate_separation_margin (c : AnalysisConfig)
    (env : Environment) (j : Junction) : Except PyError ℝ :=
  match j.calculate_bolt_stiffness with
  | .error e => .error e
  | .ok _k_b =>
    match j.calculate_joint_stiffness with
    | .error e => .error e
    | .ok _k_c =>
      match j.calculate_loading_plane_factor with
      | .error e => .error e
      | .ok n =>
        match j.calculate_stiffness_factor with
        | .error e => .error e
        | .ok phi =>
          match calculate_preloads c env j with
          | .error e => .error e
          | .ok p =>
              .ok (separation_margin_formula p.1 env.tension
                c.safety_separation c.fitting_factor n phi)

/-! ### Concrete fixtures used by witnesses and counterexamples -/

/-- A material with unit SI properties. -/
def matUnit : Material := ⟨1, 1, 1, 1⟩

/-- A 1/2-13 UNC-style fastener, nominal diameter 1, length 3. -/
def fastOk : Fastener := ⟨r"1/2-13 UNC", 1, 3, 1, 2, 1, false, false, matUnit⟩

/-- A valid junction: one clamped plate of thickness 1, nut of height 1;
required length 2 < fastener length 3, engagement 1 ≥ 1/2. -/
def J_ok : Junction :=
  ⟨fastOk, [⟨1, matUnit⟩], .nut (r"1/2-13 UNC") 2 1 matUnit⟩

/-- Same junction but with fastener length exactly the required length 2. -/
def J_exact : Junction :=
  ⟨⟨r"1/2-13 UNC", 1, 2, 1, 2, 1, false, false, matUnit⟩,
   [⟨1, matUnit⟩], .nut (r"1/2-13 UNC") 2 1 matUnit⟩

/-- A fastener whose thread spec does not match `J_ok`'s nut. -/
def badFast : Fastener := ⟨r"M6x1.0", 1, 5/2, 1, 2, 1, false, false, matUnit⟩

/-- A clamped plate thick enough to make `J_ok`'s fastener too short. -/
def cBig : ClampedComponent := ⟨1, matUnit⟩

/-- Analysis configuration: metric, friction 1/5, safety factors 3/2,
fitting 1, nut factor 1/5, uncertainty 1/4. -/
def cfgW : AnalysisConfig := ⟨.metric, 1/5, 3/2, 3/2, 3/2, 1, 1/5, 1/4⟩

/-- Analysis configuration with nut factor 1 (same otherwise). -/
def cfgNut1 : AnalysisConfig := ⟨.metric, 1/5, 3/2, 3/2, 3/2, 1, 1, 1/4⟩

/-- Environment with equal temperatures (no thermal excursion), torque 10. -/
def envEq : Environment := ⟨0, 0, 0, 300, 300, 300, 10⟩

/-- Environment with equal temperatures, torque 100. -/
def envT100 : Environment := ⟨0, 0, 0, 300, 300, 300, 100⟩

/-! ### Evaluation lemmas for the fixtures -/

/-- `J_ok` passes assembly validation. -/
lemma J_ok_valid : J_ok.validate_assembly = .ok () := by
  norm_num [J_ok, fastOk, matUnit, Junction.validate_assembly,
    Junction.thread_engagement, Junction.required_length,
    Junction.stack_up_thickness, Junction.grip_length,
    ThreadedMember.threaded_length, ThreadedMember.thread_spec]

/-- `J_exact`'s fastener length equals its required length exactly. -/
lemma J_exact_length_eq : J_exact.fastener.length = J_exact.required_length := by
  norm_num [J_exact, Junction.required_length, Junction.stack_up_thickness,
    Junction.grip_length, ThreadedMember.threaded_length]

/-! ### C9 — strict inequality on fastener length -/

/-- C9: assembly validation enforces a strict inequality on fastener length:
a fastener length exactly equal to the required length (stack-up thickness
plus nut height) is rejected, and a junction is accepted only when the
fastener length strictly exceeds the required length. -/
theorem C9_fastener_length_strict (j : Junction) :
    (j.fastener.length = j.required_length → j.validate_assembly ≠ .ok ()) ∧
    (j.validate_assembly = .ok () → j.required_length < j.fastener.length) := by
  constructor
  · intro heq hok
    unfold Junction.validate_assembly at hok
    split_ifs at hok with h1 h2 h3 h4
    exact h4 heq.le
  · intro hok
    unfold Junction.validate_assembly at hok
    split_ifs at hok with h1 h2 h3 h4
    exact lt_of_not_le h4

/-- C9 witness: `J_exact` has fastener length exactly the required length,
and its validation is rejected. -/
theorem C9_fastener_length_strict_witness :
    J_exact.fastener.length = J_exact.required_length ∧
    J_exact.validate_assembly ≠ .ok () :=
  ⟨J_exact_length_eq, (C9_fastener_length_strict J_exact).1 J_exact_length_eq⟩

/-! ### C4 — atomicity of mutation operations -/

/-- C4 counterexample: `add_clamped_component` is not atomic.  Adding a
too-thick plate to the valid junction `J_ok` fails validation, yet the
junction is left with the component appended rather than in its prior
state. -/
theorem C4_counterexample :
    J_ok.validate_assembly = .ok () ∧
    (J_ok.add_clamped_component cBig).result = .error .valueError ∧
    (J_ok.add_clamped_component cBig).state ≠ J_ok := by
  refine ⟨J_ok_valid, ?_, ?_⟩
  · norm_num [Junction.add_clamped_component, J_ok, fastOk, matUnit, cBig,
      Junction.validate_assembly, Junction.thread_engagement,
      Junction.required_length, Junction.stack_up_thickness,
      Junction.grip_length, ThreadedMember.threaded_length,
      ThreadedMember.thread_spec]
  · simp [Junction.add_clamped_component, J_ok, fastOk, matUnit, cBig]

/-- C4 amended: `set_fastener`, `set_threaded_member` and
`remove_clamped_component` are atomic (on failure the junction is exactly its
prior state), but `add_clamped_component` always leaves the component
appended — including when post-mutation validation fails. -/
theorem C4_mutation_atomicity_amended :
    (∀ (j : Junction) (f : Fastener) (e : PyError),
      (j.set_fastener f).result = .error e → (j.set_fastener f).state = j) ∧
    (∀ (j : Junction) (m : ThreadedMember) (e : PyError),
      (j.set_threaded_member m).result = .error e →
        (j.set_threaded_member m).state = j) ∧
    (∀ (j : Junction) (i : ℕ) (e : PyError),
      (j.remove_clamped_component i).result = .error e →
        (j.remove_clamped_component i).state = j) ∧
    (∀ (j : Junction) (comp : ClampedComponent),
      (j.add_clamped_component comp).state =
        ⟨j.fastener, j.clamped_components ++ [comp], j.threaded_member⟩) := by
  refine ⟨fun j f e h => ?_, fun j m e h => ?_, fun j i e h => ?_,
    fun j comp => rfl⟩
  · unfold Junction.set_fastener at h ⊢
    rcases hv : Junction.validate_assembly { j with fastener := f } with _ | u
    · simp [hv]
    · simp [hv] at h
  · unfold Junction.set_threaded_member at h ⊢
    rcases hv : Junction.validate_assembly { j with threaded_member := m } with _ | u
    · simp [hv]
    · simp [hv] at h
  · unfold Junction.remove_clamped_component at h ⊢
    by_cases h1 : j.clamped_components.length ≤ 1
    · simp [h1]
    · by_cases h2 : i < j.clamped_components.length
      · rcases hv : Junction.validate_assembly
          { j with clamped_components := j.clamped_components.eraseIdx i } with _ | u
        · simp [h1, h2, hv]
        · rw [if_neg h1, if_pos h2] at h
          simp [hv] at h
      · simp [h1, h2]

/-- `J_ok` with `badFast` substituted fails validation on thread-spec
mismatch, so `set_fastener` reports the error. -/
lemma J_ok_set_badFast :
    (J_ok.set_fastener badFast).result = .error .valueError := by
  have hv : Junction.validate_assembly { J_ok with fastener := badFast } =
      .error .valueError := by
    norm_num [J_ok, fastOk, badFast, matUnit, Junction.validate_assembly,
      ThreadedMember.thread_spec]
    intro h
    exact absurd h (by decide)
  simp [Junction.set_fastener, hv]

/-- C4 amended witness: replacing `J_ok`'s fastener with a mismatched-thread
fastener fails, and the junction is left exactly in its prior state. -/
theorem C4_mutation_atomicity_amended_witness :
    (J_ok.set_fastener badFast).result = .error .valueError ∧
    (J_ok.set_fastener badFast).state = J_ok :=
  ⟨J_ok_set_badFast,
   C4_mutation_atomicity_amended.1 J_ok badFast .valueError J_ok_set_badFast⟩

/-! ### C10 — nut factor and uncertainty factor are never validated -/

/-- C10: `_validate_inputs` range-checks only the unit system, friction
coefficient, safety factors and fitting factor; any `nut_factor` and
`preload_uncertainty_factor` values — zero and negatives included — are
accepted at construction, and a zero nut factor only fails later inside
`calculate_preloads` as a division by zero. -/
theorem C10_nut_factor_unvalidated (us : UnitSystem) (mu su sy ss ff : ℚ)
    (hus : us ≠ .unrecognized) (hmu0 : 0 < mu) (hmu1 : mu ≤ 1)
    (hsu : 1 < su) (hsy : 1 < sy) (hss : 1 < ss) (hff : 1 ≤ ff) :
    (∀ nf upf : ℚ,
      AnalysisConfig.validate_inputs ⟨us, mu, su, sy, ss, ff, nf, upf⟩ = .ok ()) ∧
    (∀ (upf : ℚ) (env : Environment) (j : Junction),
      calculate_preloads ⟨us, mu, su, sy, ss, ff, 0, upf⟩ env j =
        .error .zeroDivisionError) := by
  constructor
  · intro nf upf
    unfold AnalysisConfig.validate_inputs
    rw [if_neg hus, if_neg (not_not_intro ⟨hmu0, hmu1⟩),
      if_neg (not_not_intro ⟨hsu, hsy, hss⟩), if_neg (not_lt.mpr hff)]
  · intro upf env j
    unfold calculate_preloads
    simp

/-- C10 witness: a metric configuration with nut factor −5 and uncertainty
factor −1 passes `_validate_inputs`; the same configuration with nut factor 0
makes `calculate_preloads` raise a division by zero. -/
theorem C10_nut_factor_unvalidated_witness :
    AnalysisConfig.validate_inputs
      ⟨.metric, 1/5, 3/2, 3/2, 3/2, 1, -5, -1⟩ = .ok () ∧
    calculate_preloads ⟨.metric, 1/5, 3/2, 3/2, 3/2, 1, 0, -1⟩ envEq J_ok =
      .error .zeroDivisionError :=
  ⟨(C10_nut_factor_unvalidated .metric (1/5) (3/2) (3/2) (3/2) 1 (by decide)
      (by norm_num) (by norm_num) (by norm_num) (by norm_num) (by norm_num)
      (by norm_num)).1 (-5) (-1),
   (C10_nut_factor_unvalidated .metric (1/5) (3/2) (3/2) (3/2) 1 (by decide)
      (by norm_num) (by norm_num) (by norm_num) (by norm_num) (by norm_num)
      (by norm_num)).2 (-1) envEq J_ok⟩

/-! ### C2 — preload ordering invariant -/

/-- A validated environment has positive preload torque. -/
lemma Environment.validate_ok_torque_pos (e : Environment)
    (h : e.validate = .ok ()) : 0 < e.preload_torque := by
  unfold Environment.validate at h
  split_ifs at h with h1 h2
  exact lt_of_not_le h2

/-- Arithmetic core of the preload ordering: with u ∈ [0,1), P0 > 0 and
nonnegative thermal adjustments, (1−u)·((1+u)·P0) − dmin ≤ P0 ≤
(1+u)·P0 + dmax. -/
lemma preload_ordering_arith (u P0 dmin dmax : ℚ) (hu0 : 0 ≤ u) (hu1 : u < 1)
    (hP0 : 0 < P0) (hdmin : 0 ≤ dmin) (hdmax : 0 ≤ dmax) :
    (1 - u) * ((1 + u) * P0) - dmin ≤ P0 ∧ P0 ≤ (1 + u) * P0 + dmax := by
  constructor
  · nlinarith [mul_nonneg (mul_nonneg hu0 hu0) hP0.le]
  · nlinarith [mul_nonneg hu0 hP0.le]

/-- Evaluation of `calculate_preloads` on the `cfgW`/`envEq`/`J_ok` fixture:
P0 = 10/(1/5) = 50, widened to 125/2 and (3/4)·(125/2) = 375/8, no thermal
excursion. -/
lemma preloads_cfgW_eval :
    calculate_preloads cfgW envEq J_ok = .ok (375/8, 125/2, 50) := by
  norm_num [calculate_preloads, toUnit, get_stress_area, cfgW, envEq, J_ok,
    fastOk, matUnit]

/-- C2: for a valid environment (positive torque), a positive nut factor and
nominal diameter, and an uncertainty fraction in [0, 1), the preload triple
returned by `calculate_preloads` satisfies min ≤ nominal ≤ max. -/
theorem C2_preload_ordering (c : AnalysisConfig) (env : Environment)
    (j : Junction) (mn mx nom : ℚ)
    (hu0 : 0 ≤ c.preload_uncertainty_factor)
    (hu1 : c.preload_uncertainty_factor < 1)
    (henv : env.validate = .ok ())
    (hnf : 0 < c.nut_factor)
    (hD : 0 < j.fastener.nominal_diameter)
    (h : calculate_preloads c env j = .ok (mn, mx, nom)) :
    mn ≤ nom ∧ nom ≤ mx := by
  have htq := Environment.validate_ok_torque_pos env henv
  unfold calculate_preloads at h
  simp only [toUnit] at h
  rw [if_neg (mul_pos hnf hD).ne'] at h
  split_ifs at h with hlen
  rw [Except.ok.injEq, Prod.mk.injEq, Prod.mk.injEq] at h
  obtain ⟨h1, h2, h3⟩ := h
  subst h1; subst h2; subst h3
  have hP0 : 0 < env.preload_torque /
      (c.nut_factor * j.fastener.nominal_diameter) :=
    div_pos htq (mul_pos hnf hD)
  exact preload_ordering_arith _ _ _ _ hu0 hu1 hP0
    (le_min (abs_nonneg _) (abs_nonneg _))
    (le_max_of_le_left (abs_nonneg _))

/-- C2 witness: the fixture evaluates to (375/8, 125/2, 50) and the ordering
holds there. -/
theorem C2_preload_ordering_witness :
    calculate_preloads cfgW envEq J_ok = .ok (375/8, 125/2, 50) ∧
    (375/8 : ℚ) ≤ 50 ∧ (50 : ℚ) ≤ 125/2 :=
  ⟨preloads_cfgW_eval,
   C2_preload_ordering cfgW envEq J_ok (375/8) (125/2) 50
     (by norm_num [cfgW]) (by norm_num [cfgW])
     (by norm_num [Environment.validate, envEq])
     (by norm_num [cfgW]) (by norm_num [J_ok, fastOk]) preloads_cfgW_eval⟩

/-! ### C3 — preload formula -/

/-- Modelled from the spec: the claimed symmetric widening,
`base_min = (1 − u) · P0`, followed by the thermal narrowing
`min_preload = base_min − min(|ΔP_hot|, |ΔP_cold|)`. -/
def spec_claimed_min_preload (u P0 dmin : ℚ) : ℚ := (1 - u) * P0 - dmin

/-- Modelled from the spec's preload description amended in exactly one
place: `base_min = (1 − u) · base_max` (as the source computes) instead of
`(1 − u) · P0`.  Everything else follows the spec's words: `P0 = T/(K·D)`,
`ΔP_t = Δα·ΔT·E_bolt·A_stress` with `Δα` the bolt coefficient minus the
unweighted average of the clamped components' coefficients and
`A_stress = 0.25·3.14159·D²`; `min_preload = base_min − min(|ΔP_hot|,
|ΔP_cold|)`, `max_preload = base_max + max(|ΔP_hot|, |ΔP_cold|)`,
`nominal_preload = P0` untouched by thermal terms. -/
def spec_preloads_amended (c : AnalysisConfig) (env : Environment)
    (j : Junction) : ℚ × ℚ × ℚ :=
  let D := j.fastener.nominal_diameter
  let P0 := env.preload_torque / (c.nut_factor * D)
  let base_max := (1 + c.preload_uncertainty_factor) * P0
  let base_min := (1 - c.preload_uncertainty_factor) * base_max
  let alphas :=
    j.clamped_components.map (fun comp => comp.material.thermal_expansion)
  let delta_alpha :=
    j.fastener.material.thermal_expansion - alphas.sum / (alphas.length : ℚ)
  let A := 0.25 * 3.14159 * D ^ 2
  let dP_hot := delta_alpha * (env.max_temp - env.nom_temp) *
    j.fastener.material.elastic_modulus * A
  let dP_cold := delta_alpha * (env.nom_temp - env.min_temp) *
    j.fastener.material.elastic_modulus * A
  (base_min - min |dP_hot| |dP_cold|, base_max + max |dP_hot| |dP_cold|, P0)

/-- C3 counterexample: with torque 100, nut factor 1, diameter 1 and
uncertainty 1/4 (no thermal excursion), the code returns
min_preload = (1 − 1/4)·((1 + 1/4)·100) = 375/4, while the claim's
symmetric widening `(1 − u)·P0 − ΔP_min` gives 75. -/
theorem C3_counterexample :
    calculate_preloads cfgNut1 envT100 J_ok = .ok (375/4, 125, 100) ∧
    spec_claimed_min_preload cfgNut1.preload_uncertainty_factor 100 0 = 75 ∧
    (375/4 : ℚ) ≠ 75 := by
  refine ⟨?_, by norm_num [spec_claimed_min_preload, cfgNut1], by norm_num⟩
  norm_num [calculate_preloads, toUnit, get_stress_area, cfgNut1, envT100,
    J_ok, fastOk, matUnit]

/-- C3 amended: `calculate_preloads` computes exactly the spec formula with
the single correction `base_min = (1 − u) · base_max`, whenever the
torque-to-preload divisor is nonzero and the clamped stack is nonempty. -/
theorem C3_preload_formula_amended (c : AnalysisConfig) (env : Environment)
    (j : Junction)
    (hk : c.nut_factor * j.fastener.nominal_diameter ≠ 0)
    (hne : j.clamped_components ≠ []) :
    calculate_preloads c env j = .ok (spec_preloads_amended c env j) := by
  unfold calculate_preloads spec_preloads_amended get_stress_area
  simp only [toUnit, ite_self]
  rw [if_neg hk, if_neg]
  rw [List.length_map]
  exact fun h0 => hne (List.length_eq_zero.mp h0)

/-- C3 amended witness: the fixture satisfies the hypotheses and the formula
equality. -/
theorem C3_preload_formula_amended_witness :
    cfgNut1.nut_factor * J_ok.fastener.nominal_diameter ≠ 0 ∧
    J_ok.clamped_components ≠ [] ∧
    calculate_preloads cfgNut1 envT100 J_ok =
      .ok (spec_preloads_amended cfgNut1 envT100 J_ok) :=
  ⟨by norm_num [cfgNut1, J_ok, fastOk],
   by simp [J_ok],
   C3_preload_formula_amended cfgNut1 envT100 J_ok
     (by norm_num [cfgNut1, J_ok, fastOk]) (by simp [J_ok])⟩

/-! ### C1 — stiffness factor -/

/-- `_get_configuration_parameters` in the THROUGH_BOLT configuration with a
nonzero Σ(l/E). -/
lemma params_through_bolt (j : Junction)
    (hcfg : j.configuration_type = .THROUGH_BOLT)
    (hslE : sum_l_over_E j.clamped_components ≠ 0) :
    j.get_configuration_parameters = .ok
      ((((j.clamped_components.map (fun c => c.thickness)).sum : ℚ) : ℝ),
       (j.fastener.nominal_diameter : ℝ),
       (((j.clamped_components.map (fun c => c.thickness)).sum : ℚ) : ℝ) /
         (2 * Real.pi) / (sum_l_over_E j.clamped_components : ℝ)) := by
  unfold Junction.get_configuration_parameters
  simp only [hcfg]
  rw [if_neg hslE]

/-- In the THROUGH_BOLT configuration with positive geometry, the bolt
stiffness is positive, the joint stiffness is **negative** (the log argument
(L+0.5D)/(L+2.5D) lies in (0,1), so its log is negative), and consequently
every value `calculate_stiffness_factor` returns lies outside (0,1). -/
lemma through_bolt_stiffness_analysis (j : Junction)
    (hcfg : j.configuration_type = .THROUGH_BOLT)
    (hne : j.clamped_components ≠ [])
    (hpos : ∀ comp ∈ j.clamped_components,
      0 < comp.thickness ∧ 0 < comp.material.elastic_modulus)
    (hD : 0 < j.fastener.nominal_diameter)
    (hEb : 0 < j.fastener.material.elastic_modulus) :
    ∃ kb kj : ℝ,
      j.calculate_bolt_stiffness = .ok kb ∧
      j.calculate_joint_stiffness = .ok kj ∧
      0 < kb ∧ kj < 0 ∧
      ∀ phi : ℝ, j.calculate_stiffness_factor = .ok phi →
        ¬(0 < phi ∧ phi < 1) := by
  have hLq : 0 < (j.clamped_components.map (fun c => c.thickness)).sum :=
    List.sum_pos _
      (fun x hx => by
        obtain ⟨c, hc, rfl⟩ := List.mem_map.mp hx
        exact (hpos c hc).1)
      (fun hnil => hne (List.map_eq_nil.mp hnil))
  have hslEq : 0 < sum_l_over_E j.clamped_components := by
    unfold sum_l_over_E
    refine List.sum_pos _ (fun x hx => ?_)
      (fun hnil => hne (List.map_eq_nil.mp hnil))
    obtain ⟨c, hc, rfl⟩ := List.mem_map.mp hx
    exact div_pos (hpos c hc).1 (hpos c hc).2
  have hparams := params_through_bolt j hcfg hslEq.ne'
  set LR : ℝ := (((j.clamped_components.map (fun c => c.thickness)).sum : ℚ) : ℝ)
    with hLRdef
  set DR : ℝ := (j.fastener.nominal_diameter : ℝ) with hDRdef
  set SR : ℝ := (sum_l_over_E j.clamped_components : ℝ) with hSRdef
  set EbR : ℝ := (j.fastener.material.elastic_modulus : ℝ) with hEbRdef
  have hLR : 0 < LR := by rw [hLRdef]; exact_mod_cast hLq
  have hDR : 0 < DR := by rw [hDRdef]; exact_mod_cast hD
  have hSR : 0 < SR := by rw [hSRdef]; exact_mod_cast hslEq
  have hEbR : 0 < EbR := by rw [hEbRdef]; exact_mod_cast hEb
  have hEj : 0 < LR / (2 * Real.pi) / SR :=
    div_pos (div_pos hLR (by positivity)) hSR
  have hkb : j.calculate_bolt_stiffness = .ok (0.25 * Real.pi * DR ^ 2 * EbR / LR) := by
    unfold Junction.calculate_bolt_stiffness
    rw [hparams]
    dsimp only
    rw [if_neg hLR.ne']
  have hkbpos : 0 < 0.25 * Real.pi * DR ^ 2 * EbR / LR :=
    div_pos (by positivity) hLR
  have hdenpos : (0 : ℝ) < LR + 2.5 * DR := by nlinarith
  have hlogarg : j.joint_stiffness_log_argument =
      .ok ((LR + 0.5 * DR) / (LR + 2.5 * DR)) := by
    unfold Junction.joint_stiffness_log_argument
    rw [hparams]
    dsimp only
    simp only [hcfg]
    rw [if_neg hdenpos.ne']
  have hr0 : 0 < (LR + 0.5 * DR) / (LR + 2.5 * DR) :=
    div_pos (by nlinarith) hdenpos
  have hr1 : (LR + 0.5 * DR) / (LR + 2.5 * DR) < 1 :=
    (div_lt_one hdenpos).mpr (by nlinarith)
  have hlogneg : Real.log ((LR + 0.5 * DR) / (LR + 2.5 * DR)) < 0 :=
    Real.log_neg hr0 hr1
  have hkj : j.calculate_joint_stiffness =
      .ok (Real.pi * (LR / (2 * Real.pi) / SR) * DR /
        (2 * Real.log ((LR + 0.5 * DR) / (LR + 2.5 * DR)))) := by
    unfold Junction.calculate_joint_stiffness
    rw [hparams, hlogarg]
    dsimp only
    rw [if_neg (not_le.mpr hr0), if_neg hlogneg.ne]
    simp only [hcfg]
  have hkjneg : Real.pi * (LR / (2 * Real.pi) / SR) * DR /
      (2 * Real.log ((LR + 0.5 * DR) / (LR + 2.5 * DR))) < 0 :=
    div_neg_of_pos_of_neg
      (mul_pos (mul_pos Real.pi_pos hEj) hDR) (by linarith)
  refine ⟨_, _, hkb, hkj, hkbpos, hkjneg, ?_⟩
  intro phi hphi hio
  obtain ⟨h0, h1⟩ := hio
  unfold Junction.calculate_stiffness_factor at hphi
  rw [hkb, hkj] at hphi
  dsimp only at hphi
  set kb := 0.25 * Real.pi * DR ^ 2 * EbR / LR with hkbdef
  set kj := Real.pi * (LR / (2 * Real.pi) / SR) * DR /
    (2 * Real.log ((LR + 0.5 * DR) / (LR + 2.5 * DR))) with hkjdef
  by_cases hsum : kb + kj = 0
  · rw [if_pos hsum] at hphi
    exact Except.noConfusion hphi
  · rw [if_neg hsum] at hphi
    have hval : kb / (kb + kj) = phi := by
      exact (Except.ok.injEq _ _).mp hphi
    rcases lt_or_gt_of_ne hsum with hneg | hposs
    · have : kb / (kb + kj) < 0 := div_neg_of_pos_of_neg hkbpos hneg
      rw [hval] at this
      linarith
    · have : 1 < kb / (kb + kj) := (one_lt_div hposs).mpr (by linarith)
      rw [hval] at this
      linarith

/-- C1 amended: the claim `Φ ∈ (0,1)` fails for the THROUGH_BOLT
configuration: there the joint stiffness is strictly negative for every
physically valid geometry (positive thicknesses, moduli and diameter), so
the computed stiffness factor K_b/(K_b+K_j) never lies in (0,1);
`Φ ∈ (0,1)` can only hold in configurations whose log argument exceeds 1. -/
theorem C1_stiffness_factor_amended (j : Junction)
    (hcfg : j.configuration_type = .THROUGH_BOLT)
    (hne : j.clamped_components ≠ [])
    (hpos : ∀ comp ∈ j.clamped_components,
      0 < comp.thickness ∧ 0 < comp.material.elastic_modulus)
    (hD : 0 < j.fastener.nominal_diameter)
    (hEb : 0 < j.fastener.material.elastic_modulus) :
    (∃ kj : ℝ, j.calculate_joint_stiffness = .ok kj ∧ kj < 0) ∧
    ∀ phi : ℝ, j.calculate_stiffness_factor = .ok phi →
      ¬(0 < phi ∧ phi < 1) := by
  obtain ⟨kb, kj, hkb, hkj, hkbp, hkjn, hall⟩ :=
    through_bolt_stiffness_analysis j hcfg hne hpos hD hEb
  exact ⟨⟨kj, hkj, hkjn⟩, hall⟩

/-- C1 counterexample: `J_ok` is a fully valid THROUGH_BOLT junction with
D = 1 < head diameter 2 and positive thicknesses, yet no value of
`calculate_stiffness_factor` on it lies in (0,1). -/
theorem C1_counterexample :
    J_ok.fastener.nominal_diameter < J_ok.fastener.head_diameter ∧
    (∀ comp ∈ J_ok.clamped_components, 0 < comp.thickness) ∧
    J_ok.configuration_type = .THROUGH_BOLT ∧
    ¬∃ phi : ℝ, J_ok.calculate_stiffness_factor = .ok phi ∧
      0 < phi ∧ phi < 1 := by
  refine ⟨by norm_num [J_ok, fastOk], ?_, rfl, ?_⟩
  · intro comp hc
    simp only [J_ok, List.mem_singleton] at hc
    subst hc
    norm_num
  · rintro ⟨phi, hphi, h0, h1⟩
    obtain ⟨kb, kj, _, _, _, _, hall⟩ :=
      through_bolt_stiffness_analysis J_ok rfl (by simp [J_ok])
        (fun comp hc => by
          simp only [J_ok, List.mem_singleton] at hc
          subst hc
          exact ⟨by norm_num, by norm_num [matUnit]⟩)
        (by norm_num [J_ok, fastOk]) (by norm_num [J_ok, fastOk, matUnit])
    exact hall phi hphi ⟨h0, h1⟩

/-- C1 amended witness: the amended statement instantiated at `J_ok`. -/
theorem C1_stiffness_factor_amended_witness :
    (∃ kj : ℝ, J_ok.calculate_joint_stiffness = .ok kj ∧ kj < 0) ∧
    ∀ phi : ℝ, J_ok.calculate_stiffness_factor = .ok phi →
      ¬(0 < phi ∧ phi < 1) :=
  C1_stiffness_factor_amended J_ok rfl (by simp [J_ok])
    (fun comp hc => by
      simp only [J_ok, List.mem_singleton] at hc
      subst hc
      exact ⟨by norm_num, by norm_num [matUnit]⟩)
    (by norm_num [J_ok, fastOk]) (by norm_num [J_ok, fastOk, matUnit])

/-! ### C6 / C7 — log-domain error and loading plane factor -/

/-- A valid THREADED_END junction whose single clamped plate (3/10) is
thinner than half the threaded plate's threaded length (1): the
effective-length adjustment turns the stiffness log argument negative and
drives the loading-plane factor below 0.  Validation passes: specs match,
engagement 1 ≥ (1/2)·(1/4), required length 3/10 < fastener length 2. -/
def J_te : Junction :=
  ⟨⟨r"1/4-20 UNC", 1/4, 2, 1, 2, 1, false, false, matUnit⟩,
   [⟨3/10, matUnit⟩], .threadedPlate (r"1/4-20 UNC") 1 1 matUnit⟩

/-- `J_te` passes assembly validation. -/
lemma J_te_valid : J_te.validate_assembly = .ok () := by
  norm_num [J_te, matUnit, Junction.validate_assembly,
    Junction.thread_engagement, Junction.required_length,
    Junction.stack_up_thickness, Junction.grip_length,
    ThreadedMember.threaded_length, ThreadedMember.thread_spec]

/-- `_get_configuration_parameters` on `J_te`:
L = 3/10 − 1/2 = −1/5, D = 1/4, E_j = (−1/5)/(−1/5) = 1. -/
lemma J_te_params : J_te.get_configuration_parameters = .ok (-1/5, 1/4, 1) := by
  norm_num [Junction.get_configuration_parameters, Junction.configuration_type,
    J_te, sum_l_over_E, defaultClamped, matUnit, ThreadedMember.threaded_length]

/-- The stiffness log argument on `J_te`:
(2L + 0.5D)/(2L + 2.5D) = (−11/40)/(9/40) = −11/9. -/
lemma J_te_logarg : J_te.joint_stiffness_log_argument = .ok (-11/9) := by
  unfold Junction.joint_stiffness_log_argument
  rw [J_te_params]
  have hc : J_te.configuration_type = .THREADED_END := rfl
  simp only [hc]
  norm_num

/-- Whenever the log argument evaluates to a non-positive value, the source's
`calculate_joint_stiffness` raises the generic `ValueError` of `math.log`
(math domain error). -/
lemma joint_stiffness_mathDomain_of_nonpos (j : Junction) (r : ℝ)
    (hr : j.joint_stiffness_log_argument = .ok r) (hr0 : r ≤ 0) :
    j.calculate_joint_stiffness = .error .mathDomainError := by
  rcases hp : j.get_configuration_parameters with e | t
  · unfold Junction.joint_stiffness_log_argument at hr
    rw [hp] at hr
    exact Except.noConfusion hr
  · obtain ⟨L, D, Ej⟩ := t
    unfold Junction.calculate_joint_stiffness
    rw [hp, hr]
    dsimp only
    rw [if_pos hr0]

/-- C6 amended: a non-positive log argument makes `calculate_joint_stiffness`
raise the math-domain `ValueError` propagated out of `math.log` — an error
rather than a NaN or infinite value, but the generic math-domain condition,
not a distinct invalid-joint-geometry one. -/
theorem C6_log_domain_amended (j : Junction) (r : ℝ)
    (hr : j.joint_stiffness_log_argument = .ok r) (hr0 : r ≤ 0) :
    j.calculate_joint_stiffness = .error .mathDomainError :=
  joint_stiffness_mathDomain_of_nonpos j r hr hr0

/-- C6 counterexample: `J_te` is a validated junction whose log argument is
−11/9 ≤ 0; `calculate_joint_stiffness` raises the generic math-domain error,
which is not the distinct invalid-joint-geometry condition the claim
requires. -/
theorem C6_counterexample :
    J_te.validate_assembly = .ok () ∧
    J_te.joint_stiffness_log_argument = .ok (-11/9) ∧
    J_te.calculate_joint_stiffness = .error .mathDomainError ∧
    PyError.mathDomainError ≠ PyError.invalidJointGeometry :=
  ⟨J_te_valid, J_te_logarg,
   joint_stiffness_mathDomain_of_nonpos J_te (-11/9) J_te_logarg (by norm_num),
   by decide⟩

/-- C6 amended witness: the amended statement instantiated at `J_te`. -/
theorem C6_log_domain_amended_witness :
    J_te.joint_stiffness_log_argument = .ok (-11/9) ∧
    ((-11/9 : ℝ) ≤ 0) ∧
    J_te.calculate_joint_stiffness = .error .mathDomainError :=
  ⟨J_te_logarg, by norm_num,
   C6_log_domain_amended J_te (-11/9) J_te_logarg (by norm_num)⟩

/-- C7 counterexample: on the validated THREADED_END junction `J_te` the
loading plane factor evaluates to −2/3, outside (0, 1]. -/
theorem C7_counterexample :
    J_te.validate_assembly = .ok () ∧
    J_te.calculate_loading_plane_factor = .ok (-2/3) ∧
    ¬(0 < (-2/3 : ℚ) ∧ (-2/3 : ℚ) ≤ 1) := by
  refine ⟨J_te_valid, ?_, by norm_num⟩
  have hc : J_te.configuration_type = .THREADED_END := rfl
  unfold Junction.calculate_loading_plane_factor
  simp only [hc]
  norm_num [J_te, ThreadedMember.threaded_length]

/-- C7 amended: the claim `n ∈ (0,1]` holds in the THROUGH_BOLT
configuration with positive thicknesses; in the THREADED_END configuration
the factor drops below the interval whenever the threaded length adjustment
exceeds the clamped stack (see the counterexample). -/
theorem C7_loading_plane_factor_amended (j : Junction)
    (hcfg : j.configuration_type = .THROUGH_BOLT)
    (hne : j.clamped_components ≠ [])
    (hpos : ∀ comp ∈ j.clamped_components, 0 < comp.thickness) :
    ∃ n : ℚ, j.calculate_loading_plane_factor = .ok n ∧ 0 < n ∧ n ≤ 1 := by
  have hts : j.clamped_components.map (fun c => c.thickness) ≠ [] :=
    fun hnil => hne (List.map_eq_nil_iff.mp hnil)
  set ts := j.clamped_components.map (fun c => c.thickness) with htsdef
  have htpos : ∀ x ∈ ts, 0 < x := by
    intro x hx
    obtain ⟨c, hc, rfl⟩ := List.mem_map.mp hx
    exact hpos c hc
  have htotal : 0 < ts.sum := List.sum_pos _ htpos hts
  have hsplit : ts.dropLast ++ [ts.getLast hts] = ts :=
    List.dropLast_append_getLast hts
  have hsum : ts.dropLast.sum + ts.getLast hts = ts.sum := by
    conv_rhs => rw [← hsplit]
    rw [List.sum_append, List.sum_singleton]
  have hlast : 0 < ts.getLast hts := htpos _ (List.getLast_mem hts)
  have hinit : 0 ≤ ts.dropLast.sum :=
    List.sum_nonneg fun x hx =>
      (htpos x ((List.dropLast_sublist ts).subset hx)).le
  have hgetD : ts.getLast?.getD 0 = ts.getLast hts := by
    rw [List.getLast?_eq_getLast ts hts]
    rfl
  refine ⟨(ts.dropLast.sum + ts.getLast?.getD 0 / 2) / ts.sum, ?_, ?_, ?_⟩
  · unfold Junction.calculate_loading_plane_factor
    rw [if_neg htotal.ne']
    simp only [hcfg]
  · rw [hgetD]
    exact div_pos (by linarith) htotal
  · rw [hgetD]
    rw [div_le_one htotal]
    linarith

/-- C7 amended witness: on `J_ok` (THROUGH_BOLT, one plate of thickness 1)
the loading plane factor exists and lies in (0, 1]. -/
theorem C7_loading_plane_factor_amended_witness :
    ∃ n : ℚ, J_ok.calculate_loading_plane_factor = .ok n ∧ 0 < n ∧ n ≤ 1 :=
  C7_loading_plane_factor_amended J_ok rfl (by simp [J_ok])
    (fun comp hc => by
      simp only [J_ok, List.mem_singleton] at hc
      subst hc
      norm_num)

/-! ### C5 — separation margin wiring -/

/-- C5: whenever the junction-level quantities and the preloads all
evaluate, `calculate_separation_margin` returns exactly
`(min_preload − n·Φ·tension) / (tension·FS_sep·FF) − 1`, with `n` and `Φ`
taken from the Junction and `min_preload` from `calculate_preloads` — the
engine recomputes no geometry. -/
theorem C5_separation_margin (c : AnalysisConfig) (env : Environment)
    (j : Junction) (kb kj : ℝ) (n : ℚ) (phi : ℝ) (p : ℚ × ℚ × ℚ)
    (hkb : j.calculate_bolt_stiffness = .ok kb)
    (hkj : j.calculate_joint_stiffness = .ok kj)
    (hn : j.calculate_loading_plane_factor = .ok n)
    (hphi : j.calculate_stiffness_factor = .ok phi)
    (hp : calculate_preloads c env j = .ok p)
    (hden : (env.tension : ℝ) * (c.safety_separation : ℝ) *
      (c.fitting_factor : ℝ) ≠ 0) :
    calculate_separation_margin c env j =
      .ok (((p.1 : ℝ) - (n : ℝ) * phi * (env.tension : ℝ)) /
        ((env.tension : ℝ) * (c.safety_separation : ℝ) *
          (c.fitting_factor : ℝ)) - 1) := by
  unfold calculate_separation_margin separation_margin_formula
  rw [hkb, hkj, hn, hphi, hp]

/-- Environment with tension 2 and shear 1 for the separation-margin
witness. -/
def envSep : Environment := ⟨2, 1, 0, 300, 300, 300, 10⟩

/-- `_get_configuration_parameters` on `J_ok`: L = 1, D = 1,
E_j = 1/(2π). -/
lemma J_ok_params :
    J_ok.get_configuration_parameters = .ok (1, 1, 1 / (2 * Real.pi)) := by
  unfold Junction.get_configuration_parameters
  have hc : J_ok.configuration_type = .THROUGH_BOLT := rfl
  simp only [hc]
  norm_num [J_ok, fastOk, matUnit, sum_l_over_E]

/-- Bolt stiffness on `J_ok`: 0.25·π·1²·1/1 = 0.25·π. -/
lemma J_ok_kb : J_ok.calculate_bolt_stiffness = .ok (0.25 * Real.pi) := by
  unfold Junction.calculate_bolt_stiffness
  rw [J_ok_params]
  dsimp only
  rw [if_neg one_ne_zero]
  norm_num [J_ok, fastOk, matUnit]

/-- Stiffness log argument on `J_ok`: (1 + 0.5)/(1 + 2.5) = 3/7. -/
lemma J_ok_logarg :
    J_ok.joint_stiffness_log_argument = .ok ((3 : ℝ)/7) := by
  unfold Junction.joint_stiffness_log_argument
  rw [J_ok_params]
  have hc : J_ok.configuration_type = .THROUGH_BOLT := rfl
  simp only [hc]
  norm_num

/-- log(3/7) is negative. -/
lemma log37_neg : Real.log ((3 : ℝ)/7) < 0 :=
  Real.log_neg (by norm_num) (by norm_num)

/-- Joint stiffness on `J_ok`: π·(1/(2π))·1/(2·log(3/7)) = 1/(4·log(3/7)). -/
lemma J_ok_kj :
    J_ok.calculate_joint_stiffness = .ok (1 / (4 * Real.log ((3 : ℝ)/7))) := by
  unfold Junction.calculate_joint_stiffness
  rw [J_ok_params, J_ok_logarg]
  dsimp only
  rw [if_neg (by norm_num : ¬((3 : ℝ)/7 ≤ 0)), if_neg log37_neg.ne]
  have hc : J_ok.configuration_type = .THROUGH_BOLT := rfl
  simp only [hc, Except.ok.injEq]
  have hpi := Real.pi_ne_zero
  field_simp
  ring

/-- K_b + K_j on `J_ok` is strictly positive: log(3/7) ≤ −4/7, so
K_j = 1/(4·log(3/7)) ≥ −7/16, while K_b = 0.25·π > 0.75. -/
lemma J_ok_sum_pos :
    0 < 0.25 * Real.pi + 1 / (4 * Real.log ((3 : ℝ)/7)) := by
  have hlogle : Real.log ((3 : ℝ)/7) ≤ 3/7 - 1 :=
    Real.log_le_sub_one_of_pos (by norm_num)
  have h4L : 4 * Real.log ((3 : ℝ)/7) ≤ -16/7 := by linarith
  have h4Lneg : 4 * Real.log ((3 : ℝ)/7) < 0 := by linarith [log37_neg]
  have hs : (4 * Real.log ((3 : ℝ)/7)) * (1 / (4 * Real.log ((3 : ℝ)/7))) = 1 :=
    mul_one_div_cancel h4Lneg.ne
  have hsneg : 1 / (4 * Real.log ((3 : ℝ)/7)) < 0 :=
    one_div_neg.mpr h4Lneg
  have hpi := Real.pi_gt_three
  nlinarith [mul_le_mul_of_nonpos_left h4L hsneg.le]

/-- Stiffness factor on `J_ok`. -/
lemma J_ok_phi :
    J_ok.calculate_stiffness_factor =
      .ok ((0.25 * Real.pi) /
        (0.25 * Real.pi + 1 / (4 * Real.log ((3 : ℝ)/7)))) := by
  unfold Junction.calculate_stiffness_factor
  rw [J_ok_kb, J_ok_kj]
  dsimp only
  rw [if_neg J_ok_sum_pos.ne']

/-- Loading plane factor on `J_ok`: (0 + 1/2)/1 = 1/2. -/
lemma J_ok_lpf : J_ok.calculate_loading_plane_factor = .ok (1/2) := by
  have hc : J_ok.configuration_type = .THROUGH_BOLT := rfl
  unfold Junction.calculate_loading_plane_factor
  simp only [hc]
  norm_num [J_ok]

/-- Preloads for `cfgW` with the separation-witness environment (same torque
and temperatures as `envEq`). -/
lemma preloads_envSep_eval :
    calculate_preloads cfgW envSep J_ok = .ok (375/8, 125/2, 50) := by
  norm_num [calculate_preloads, toUnit, get_stress_area, cfgW, envSep, J_ok,
    fastOk, matUnit]

/-- C5 witness: on the `cfgW`/`envSep`/`J_ok` fixture all inputs evaluate and
the separation margin is exactly the claimed expression. -/
theorem C5_separation_margin_witness :
    J_ok.calculate_loading_plane_factor = .ok (1/2) ∧
    calculate_preloads cfgW envSep J_ok = .ok (375/8, 125/2, 50) ∧
    calculate_separation_margin cfgW envSep J_ok =
      .ok ((((375/8 : ℚ) : ℝ) - ((1/2 : ℚ) : ℝ) *
          ((0.25 * Real.pi) /
            (0.25 * Real.pi + 1 / (4 * Real.log ((3 : ℝ)/7)))) *
          (envSep.tension : ℝ)) /
        ((envSep.tension : ℝ) * (cfgW.safety_separation : ℝ) *
          (cfgW.fitting_factor : ℝ)) - 1) :=
  ⟨J_ok_lpf, preloads_envSep_eval,
   C5_separation_margin cfgW envSep J_ok (0.25 * Real.pi)
     (1 / (4 * Real.log ((3 : ℝ)/7))) (1/2)
     ((0.25 * Real.pi) / (0.25 * Real.pi + 1 / (4 * Real.log ((3 : ℝ)/7))))
     (375/8, 125/2, 50)
     J_ok_kb J_ok_kj J_ok_lpf J_ok_phi preloads_envSep_eval
     (by norm_num [envSep, cfgW])⟩

/-! ### C8 — unit-system invariance -/

/-- The stress area is the same physical value in either unit system. -/
lemma get_stress_area_unit_invariant (j : Junction)
    (mu su sy ss ff nf upf : ℚ) :
    get_stress_area ⟨.metric, mu, su, sy, ss, ff, nf, upf⟩ j =
      get_stress_area ⟨.imperial, mu, su, sy, ss, ff, nf, upf⟩ j := by
  simp [get_stress_area, toUnit]

/-- C8: with every other configuration parameter fixed, running the analysis
under `metric` and under `imperial` produces identical ultimate, yield, slip
and separation margins and identical physical preload values; the imperial
run merely displays the preloads divided by the exact N-per-lbf factor,
while the metric run displays the SI values unchanged. -/
theorem C8_unit_system_invariance (env : Environment) (j : Junction)
    (mu su sy ss ff nf upf : ℚ) :
    calculate_ultimate_margins ⟨.metric, mu, su, sy, ss, ff, nf, upf⟩ env j =
      calculate_ultimate_margins ⟨.imperial, mu, su, sy, ss, ff, nf, upf⟩ env j ∧
    calculate_yield_margins ⟨.metric, mu, su, sy, ss, ff, nf, upf⟩ env j =
      calculate_yield_margins ⟨.imperial, mu, su, sy, ss, ff, nf, upf⟩ env j ∧
    calculate_slip_margin ⟨.metric, mu, su, sy, ss, ff, nf, upf⟩ env j =
      calculate_slip_margin ⟨.imperial, mu, su, sy, ss, ff, nf, upf⟩ env j ∧
    calculate_separation_margin ⟨.metric, mu, su, sy, ss, ff, nf, upf⟩ env j =
      calculate_separation_margin ⟨.imperial, mu, su, sy, ss, ff, nf, upf⟩ env j ∧
    calculate_preloads ⟨.metric, mu, su, sy, ss, ff, nf, upf⟩ env j =
      calculate_preloads ⟨.imperial, mu, su, sy, ss, ff, nf, upf⟩ env j ∧
    calculate_preloads_displayed ⟨.imperial, mu, su, sy, ss, ff, nf, upf⟩ env j =
      (calculate_preloads ⟨.metric, mu, su, sy, ss, ff, nf, upf⟩ env j).map
        (fun t => (t.1 / newtons_per_lbf, t.2.1 / newtons_per_lbf,
          t.2.2 / newtons_per_lbf)) ∧
    calculate_preloads_displayed ⟨.metric, mu, su, sy, ss, ff, nf, upf⟩ env j =
      calculate_preloads ⟨.metric, mu, su, sy, ss, ff, nf, upf⟩ env j := by
  have hA := get_stress_area_unit_invariant j mu su sy ss ff nf upf
  have hp : calculate_preloads ⟨.metric, mu, su, sy, ss, ff, nf, upf⟩ env j =
      calculate_preloads ⟨.imperial, mu, su, sy, ss, ff, nf, upf⟩ env j := by
    unfold calculate_preloads
    rw [hA]
  refine ⟨?_, ?_, ?_, ?_, hp, ?_, ?_⟩
  · unfold calculate_ultimate_margins
    rw [hA]
  · unfold calculate_yield_margins
    rw [hA]
  · unfold calculate_slip_margin
    rw [hp]
  · unfold calculate_separation_margin
    rw [hp]
  · unfold calculate_preloads_displayed
    rw [← hp]
    rcases h : calculate_preloads ⟨.metric, mu, su, sy, ss, ff, nf, upf⟩ env j
      with e | t
    · rfl
    · simp [displayedForce, force_unit_factor, Except.map]
  · unfold calculate_preloads_displayed
    rcases h : calculate_preloads ⟨.metric, mu, su, sy, ss, ff, nf, upf⟩ env j
      with e | t
    · rfl
    · simp [displayedForce, force_unit_factor, Except.map]

end Screwpy
